import Mathlib

/-!
Shallow embedding of `src/memory/graphiti-adapter.ts` (GraphitiMemoryAdapter),
the resilient client-side adapter between the application's memory subsystem
and an external knowledge-graph service.

JavaScript `Map` objects are modelled as association lists that preserve
insertion order (`Map.set` on an existing key keeps its position, a new key is
appended; iteration visits entries in insertion order).  Remote tool
invocations (`callGraphitiTool`) may throw; each operation that can reach the
remote service takes the outcome of those invocations as an explicit
parameter, and we record the list of invocations actually made.  Timestamps
(`new Date()`) are `Nat` parameters; thrown error values are opaque strings.
-/

namespace Graphiti

/-- Opaque value carried by a thrown JavaScript error. -/
abbrev RemoteError := String

/-- The `source` discriminator of an episode: one of text, json, message. -/
inductive EpisodeSource where
  | text
  | json
  | message
deriving DecidableEq, Repr

/-- `GraphitiNode` from the source: a cached graph entity. -/
structure GraphitiNode where
  uuid : String
  name : String
  entityType : String
  observations : List String
  groupId : String
  createdAt : Nat
  updatedAt : Nat
  summary : Option String := none
deriving DecidableEq, Repr

/-- `GraphitiEdge` from the source: a directed, possibly time-bounded fact.
The TS field `from` is a Lean keyword, hence `fromUuid`. -/
structure GraphitiEdge where
  uuid : String
  fromUuid : String
  toUuid : String
  relationType : String
  groupId : String
  createdAt : Nat
  invalid : Option Bool := none
  validUntil : Option Nat := none
deriving DecidableEq, Repr

/-- `GraphitiEpisode` from the source: one pending unit of knowledge. -/
structure GraphitiEpisode where
  uuid : String
  name : String
  content : String
  source : EpisodeSource
  sourceDescription : Option String := none
  groupId : String
  createdAt : Nat
deriving DecidableEq, Repr

/-- `GraphitiSearchResult` from the source; optional fields model fields that
may be absent (`undefined`) on a returned object. -/
structure GraphitiSearchResult where
  nodes : Option (List GraphitiNode) := none
  edges : Option (List GraphitiEdge) := none
  facts : Option (List String) := none
  relevanceScore : ℚ
deriving DecidableEq, Repr

/-- Merged `GraphitiConfig` after the constructor spreads the caller's config
over the defaults (`enabled: true, maxNodes: 10000, ...`).  `defaultGroupId`
has no default in the literal, so it stays optional. -/
structure GraphitiConfig where
  enabled : Bool
  defaultGroupId : Option String := none
  maxNodes : Nat
  maxFacts : Nat
  enableAutoSync : Bool
  syncInterval : Nat
  enableTemporalTracking : Bool
  knowledgeRetentionDays : Nat
deriving DecidableEq, Repr

/-- The caller-supplied `GraphitiConfig` object before merging: every field
except `enabled` may be absent. -/
structure GraphitiConfigInput where
  enabled : Bool
  defaultGroupId : Option String := none
  maxNodes : Option Nat := none
  maxFacts : Option Nat := none
  enableAutoSync : Option Bool := none
  syncInterval : Option Nat := none
  enableTemporalTracking : Option Bool := none
  knowledgeRetentionDays : Option Nat := none
deriving DecidableEq, Repr

/-- The constructor merge `{ enabled: true, maxNodes: 10000, maxFacts: 50000,
enableAutoSync: true, syncInterval: 30000, enableTemporalTracking: true,
knowledgeRetentionDays: 90, ...config }`. -/
def mergeConfig (input : GraphitiConfigInput) : GraphitiConfig where
  enabled := input.enabled
  defaultGroupId := input.defaultGroupId
  maxNodes := input.maxNodes.getD 10000
  maxFacts := input.maxFacts.getD 50000
  enableAutoSync := input.enableAutoSync.getD true
  syncInterval := input.syncInterval.getD 30000
  enableTemporalTracking := input.enableTemporalTracking.getD true
  knowledgeRetentionDays := input.knowledgeRetentionDays.getD 90

/-- Consumer-observable events emitted by the adapter (the event surface). -/
inductive AdapterEvent where
  | connected
  | fallback
  | errorEvt (e : RemoteError)
  | memoryAdded (episode : GraphitiEpisode)
  | factUpdated (edgeUuid : String) (isValid : Bool) (validUntil : Option Nat)
  | hivemindShare (nodes : List GraphitiNode) (targetSwarms : List String) (timestamp : Nat)
  | graphCleared
  | syncCompleted (timestamp : Nat)
  | destroyed
deriving DecidableEq, Repr

/-- A remote tool invocation actually issued through `callGraphitiTool`. -/
inductive RemoteCall where
  | addMemoryTool (episode : GraphitiEpisode)
  | searchNodesTool (query : String) (maxNodes : Nat)
  | searchFactsTool (query : String) (maxFacts : Nat)
  | getEpisodesTool
  | clearGraphTool
deriving DecidableEq, Repr

/-- Lookup in a JavaScript `Map` modelled as an association list
(`Map.get`). -/
def mapGet {α : Type} : List (String × α) → String → Option α
  | [], _ => none
  | (k, v) :: rest, key => if k = key then some v else mapGet rest key

/-- `Map.set`: overwrite in place if the key exists (keeping its insertion
position), otherwise append a fresh entry. -/
def mapSet {α : Type} : List (String × α) → String → α → List (String × α)
  | [], key, v => [(key, v)]
  | (k, w) :: rest, key, v =>
      if k = key then (key, v) :: rest else (k, w) :: mapSet rest key v

/-- The full mutable state of a `GraphitiMemoryAdapter` instance.
`syncTimerActive` models whether the auto-sync interval timer is set. -/
structure AdapterState where
  config : GraphitiConfig
  isConnected : Bool
  syncTimerActive : Bool
  episodeQueue : List (String × List GraphitiEpisode)
  nodeCache : List (String × GraphitiNode)
  edgeCache : List (String × GraphitiEdge)
deriving DecidableEq, Repr

/-- Outcome of one adapter operation: the value returned or error thrown, the
state after the call, the events emitted, and the remote invocations made. -/
structure OpResult (α : Type) where
  result : Except RemoteError α
  state : AdapterState
  events : List AdapterEvent
  calls : List RemoteCall
deriving Repr

/-- JavaScript `x || d` on an optional string: `undefined` and the empty
string are falsy. -/
def jsOrStr (o : Option String) (d : String) : String :=
  match o with
  | some s => if s = "" then d else s
  | none => d

/-- JavaScript `x || d` on an optional number (here a `Nat`): `undefined` and
`0` are falsy. -/
def jsOrNat (o : Option Nat) (d : Nat) : Nat :=
  match o with
  | some n => if n = 0 then d else n
  | none => d

/-- JavaScript `x || d` on an optional score: `undefined` and `0` are
falsy. -/
def jsOrScore (o : Option ℚ) (d : ℚ) : ℚ :=
  match o with
  | some x => if x = 0 then d else x
  | none => d

/-- Fresh adapter state: the field initializers of the class
(`isConnected = false`, empty maps, no timer) together with the merged
config. -/
def initState (config : GraphitiConfig) : AdapterState where
  config := config
  isConnected := false
  syncTimerActive := false
  episodeQueue := []
  nodeCache := []
  edgeCache := []

/-- The three possible behaviors of the one-shot availability probe
(`checkGraphitiAvailability`): it resolves `true`, resolves `false`, or
throws. -/
inductive ProbeOutcome where
  | available
  | unavailable
  | thrown (e : RemoteError)
deriving DecidableEq, Repr

/-- `initialize()`: probe resolves true → set `isConnected`, emit
`connected`, start the auto-sync timer when configured; probe resolves false
→ emit `fallback`; probe throws → the catch block emits `error` only. -/
def initAdapter (st : AdapterState) (probe : ProbeOutcome) :
    AdapterState × List AdapterEvent :=
  match probe with
  | .available =>
      ({ st with isConnected := true, syncTimerActive := st.config.enableAutoSync },
       [.connected])
  | .unavailable => (st, [.fallback])
  | .thrown e => (st, [.errorEvt e])

/-- The constructor: merge the config over the defaults and, only when the
merged config is enabled, run `initialize()` (embedded as `initAdapter`).  The final `Nat` counts how many
times the availability probe was run. -/
def construct (input : GraphitiConfigInput) (probe : ProbeOutcome) :
    AdapterState × List AdapterEvent × Nat :=
  let st0 := initState (mergeConfig input)
  if (mergeConfig input).enabled then
    let p := initAdapter st0 probe
    (p.1, p.2, 1)
  else
    (st0, [], 0)

/-- Options bag of `addMemory`. -/
structure AddMemoryOptions where
  source : Option EpisodeSource := none
  sourceDescription : Option String := none
  groupId : Option String := none
deriving DecidableEq, Repr

/-- The episode literal built at the top of `addMemory`: uuid from
`generateId()`, `source` defaulting to text, `groupId` from
`options?.groupId || config.defaultGroupId || 'default'`, `createdAt` from
`new Date()`. -/
def mkEpisode (st : AdapterState) (name content : String)
    (opts : AddMemoryOptions) (newUuid : String) (now : Nat) : GraphitiEpisode where
  uuid := newUuid
  name := name
  content := content
  source := opts.source.getD .text
  sourceDescription := opts.sourceDescription
  groupId := jsOrStr opts.groupId (jsOrStr st.config.defaultGroupId "default")
  createdAt := now

/-- `addMemory(name, content, options)`: build the episode via `mkEpisode`,
append it to the tail of its group's queue, then — only when connected —
immediately flush it to the remote service; a flush throw propagates and
skips the `memory:added` emission. -/
def addMemory (st : AdapterState) (name content : String)
    (opts : AddMemoryOptions) (newUuid : String) (now : Nat)
    (flushOutcome : Except RemoteError Unit) : OpResult String :=
  let episode := mkEpisode st name content opts newUuid now
  let groupQueue := (mapGet st.episodeQueue episode.groupId).getD []
  let st1 := { st with
    episodeQueue := mapSet st.episodeQueue episode.groupId (groupQueue ++ [episode]) }
  if st.isConnected then
    match flushOutcome with
    | .ok _ =>
        { result := .ok episode.uuid, state := st1,
          events := [.memoryAdded episode], calls := [.addMemoryTool episode] }
    | .error e =>
        { result := .error e, state := st1,
          events := [], calls := [.addMemoryTool episode] }
  else
    { result := .ok episode.uuid, state := st1,
      events := [.memoryAdded episode], calls := [] }

/-- Check whether `needle` occurs as a contiguous substring of `haystack`
(`String.prototype.includes` on the underlying character lists). -/
def substrAt : List Char → List Char → Bool
  | [], _ => true
  | _ :: _, [] => false
  | a :: as, b :: bs => a = b && substrAt as bs

/-- `haystack.includes(needle)` over character lists. -/
def substrIn (needle : List Char) : List Char → Bool
  | [] => needle.isEmpty
  | c :: rest => substrAt needle (c :: rest) || substrIn needle rest

/-- `s.toLowerCase()` as a character list: character-wise lowering of the
string's underlying characters. -/
def lowerChars (s : String) : List Char := s.data.map Char.toLower

/-- `haystack.toLowerCase().includes(needle.toLowerCase())` on strings. -/
def strIncludes (haystack needle : String) : Bool :=
  substrIn (lowerChars needle) (lowerChars haystack)

/-- The match test of `fallbackSearch`:
`node.name.toLowerCase().includes(q) || node.observations.some(obs =>
obs.toLowerCase().includes(q))` where `q = query.toLowerCase()`. -/
def nodeMatches (query : String) (node : GraphitiNode) : Bool :=
  strIncludes node.name query ||
  node.observations.any (fun obs => strIncludes obs query)

/-- `fallbackSearch(query, options)`: scan `nodeCache.values()` in insertion
order collecting matches, return the first `options?.maxNodes || 10` of them,
with relevance 0.5 when the (untruncated) match list is non-empty and 0
otherwise. -/
def fallbackSearch (st : AdapterState) (query : String)
    (maxNodesOpt : Option Nat) : GraphitiSearchResult :=
  let results := (st.nodeCache.map Prod.snd).filter (nodeMatches query)
  { nodes := some (results.take (jsOrNat maxNodesOpt 10))
    edges := none
    facts := none
    relevanceScore := if results.length > 0 then (1 : ℚ) / 2 else 0 }

/-- What a successful remote search invocation resolves to; optional fields
model properties that may be `undefined` on the reply object. -/
structure RemoteSearchReply where
  nodes : Option (List GraphitiNode) := none
  facts : Option (List String) := none
  relevanceScore : Option ℚ := none
deriving DecidableEq, Repr

/-- Options bag of `searchNodes`. -/
structure SearchNodesOptions where
  groupIds : Option (List String) := none
  maxNodes : Option Nat := none
  entityType : Option String := none
  centerNodeUuid : Option String := none
deriving DecidableEq, Repr

/-- Options bag of `searchFacts`. -/
structure SearchFactsOptions where
  groupIds : Option (List String) := none
  maxFacts : Option Nat := none
  centerNodeUuid : Option String := none
deriving DecidableEq, Repr

/-- `searchNodes(query, options)`: when not connected, serve
`fallbackSearch(query, options)` from the cache; when connected, invoke the
remote `search_memory_nodes` tool and pass through its nodes with
`results.relevanceScore || 0.5`; any thrown error is caught and converted to
`{ nodes: [], relevanceScore: 0 }`. -/
def searchNodes (st : AdapterState) (query : String)
    (opts : SearchNodesOptions)
    (remote : Except RemoteError RemoteSearchReply) :
    OpResult GraphitiSearchResult :=
  if st.isConnected then
    match remote with
    | .ok reply =>
        { result := .ok { nodes := reply.nodes
                          relevanceScore := jsOrScore reply.relevanceScore ((1 : ℚ) / 2) }
          state := st, events := []
          calls := [.searchNodesTool query (jsOrNat opts.maxNodes st.config.maxNodes)] }
    | .error _ =>
        { result := .ok { nodes := some [], relevanceScore := 0 }
          state := st, events := []
          calls := [.searchNodesTool query (jsOrNat opts.maxNodes st.config.maxNodes)] }
  else
    { result := .ok (fallbackSearch st query opts.maxNodes)
      state := st, events := [], calls := [] }

/-- `searchFacts(query, options)`: when not connected, serve
`fallbackSearch(query, options)` (whose options bag has no `maxNodes`
property, so the limit falls back to 10); when connected, invoke the remote
`search_memory_facts` tool and pass through its facts; any thrown error is
caught and converted to `{ facts: [], relevanceScore: 0 }`. -/
def searchFacts (st : AdapterState) (query : String)
    (opts : SearchFactsOptions)
    (remote : Except RemoteError RemoteSearchReply) :
    OpResult GraphitiSearchResult :=
  if st.isConnected then
    match remote with
    | .ok reply =>
        { result := .ok { facts := reply.facts
                          relevanceScore := jsOrScore reply.relevanceScore ((1 : ℚ) / 2) }
          state := st, events := []
          calls := [.searchFactsTool query (jsOrNat opts.maxFacts st.config.maxFacts)] }
    | .error _ =>
        { result := .ok { facts := some [], relevanceScore := 0 }
          state := st, events := []
          calls := [.searchFactsTool query (jsOrNat opts.maxFacts st.config.maxFacts)] }
  else
    { result := .ok (fallbackSearch st query none)
      state := st, events := [], calls := [] }

/-- `Array.prototype.slice(-limit)`: the last `limit` elements, except that
`slice(-0)` is `slice(0)`, the whole array. -/
def sliceLast {α : Type} (l : List α) (limit : Nat) : List α :=
  if limit = 0 then l else l.drop (l.length - limit)

/-- `getRecentEpisodes(groupId, limit)`: when not connected, the last `limit`
entries of the group's queue (group defaulting to 'default'); when connected,
the remote `get_episodes` reply's `episodes || []`; a thrown error is caught
and converted to `[]`. -/
def getRecentEpisodes (st : AdapterState) (groupId : Option String)
    (limit : Nat)
    (remote : Except RemoteError (Option (List GraphitiEpisode))) :
    OpResult (List GraphitiEpisode) :=
  if st.isConnected then
    match remote with
    | .ok reply =>
        { result := .ok (reply.getD []), state := st, events := [],
          calls := [.getEpisodesTool] }
    | .error _ =>
        { result := .ok [], state := st, events := [],
          calls := [.getEpisodesTool] }
  else
    { result := .ok (sliceLast ((mapGet st.episodeQueue (jsOrStr groupId "default")).getD []) limit)
      state := st, events := [], calls := [] }

/-- `clearGraph()`: when connected, first invoke the remote `clear_graph`
tool; if that throws, the catch block rethrows and the local clears and the
`graph:cleared` emission are skipped.  Otherwise clear the node cache, the
edge cache and the episode queue and emit `graph:cleared`. -/
def clearGraph (st : AdapterState)
    (remote : Except RemoteError Unit) : OpResult Unit :=
  if st.isConnected then
    match remote with
    | .error e =>
        { result := .error e, state := st, events := [],
          calls := [.clearGraphTool] }
    | .ok _ =>
        { result := .ok ()
          state := { st with nodeCache := [], edgeCache := [], episodeQueue := [] }
          events := [.graphCleared], calls := [.clearGraphTool] }
  else
    { result := .ok ()
      state := { st with nodeCache := [], edgeCache := [], episodeQueue := [] }
      events := [.graphCleared], calls := [] }

/-- The mutated edge written back by `updateFactValidity`:
`edge.invalid = !isValid; edge.validUntil = validUntil`. -/
def updatedEdge (edge : GraphitiEdge) (isValid : Bool)
    (validUntil : Option Nat) : GraphitiEdge :=
  { edge with invalid := some (!isValid), validUntil := validUntil }

/-- `updateFactValidity(edgeUuid, isValid, validUntil)`: return immediately
when temporal tracking is disabled; otherwise, only when the edge is cached,
write back the mutated edge and emit `fact:updated`.  No remote invocation
on any path. -/
def updateFactValidity (st : AdapterState) (edgeUuid : String)
    (isValid : Bool) (validUntil : Option Nat) : OpResult Unit :=
  if st.config.enableTemporalTracking = false then
    { result := .ok (), state := st, events := [], calls := [] }
  else
    match mapGet st.edgeCache edgeUuid with
    | none => { result := .ok (), state := st, events := [], calls := [] }
    | some edge =>
        { result := .ok ()
          state := { st with
            edgeCache := mapSet st.edgeCache edgeUuid (updatedEdge edge isValid validUntil) }
          events := [.factUpdated edgeUuid isValid validUntil]
          calls := [] }

/-- `shareWithHiveMind(nodeUuids, targetSwarms)`: resolve each uuid against
the node cache, drop unresolved ones, and emit one `hivemind:share` only when
at least one node resolved. -/
def shareWithHiveMind (st : AdapterState) (nodeUuids : List String)
    (targetSwarms : List String) (now : Nat) : OpResult Unit :=
  let nodes := nodeUuids.filterMap (fun u => mapGet st.nodeCache u)
  { result := .ok ()
    state := st
    events := if nodes.length > 0 then [.hivemindShare nodes targetSwarms now] else []
    calls := [] }

/-- The record returned by `getStatistics()`. -/
structure Statistics where
  totalNodes : Nat
  totalEdges : Nat
  queuedEpisodes : Nat
  cacheSize : Nat
  isConnected : Bool
deriving DecidableEq, Repr

/-- `getStatistics()`: cache sizes, the `reduce`-computed total of queued
episodes across groups, combined cache size, and the connectivity flag. -/
def getStatistics (st : AdapterState) : Statistics where
  totalNodes := st.nodeCache.length
  totalEdges := st.edgeCache.length
  queuedEpisodes := st.episodeQueue.foldl (fun sum p => sum + p.2.length) 0
  cacheSize := st.nodeCache.length + st.edgeCache.length
  isConnected := st.isConnected

/-- One group's inner loop of `syncWithGraphiti`: attempt `flushEpisode` on
every queued episode in order; a throw is caught, logged and swallowed, and
the loop continues with the next episode. -/
def attemptGroup (deliver : GraphitiEpisode → Except RemoteError Unit) :
    List GraphitiEpisode → List RemoteCall
  | [] => []
  | e :: rest =>
      match deliver e with
      | .ok _ => .addMemoryTool e :: attemptGroup deliver rest
      | .error _ => .addMemoryTool e :: attemptGroup deliver rest

/-- `syncWithGraphiti()`: for every group of the queue map in iteration
order, attempt every queued episode via `flushEpisode` (failures swallowed
per episode), then set that group's queue to `[]`; finally emit
`sync:completed` with the current time. -/
def syncWithGraphiti (st : AdapterState)
    (deliver : GraphitiEpisode → Except RemoteError Unit) (now : Nat) :
    OpResult Unit where
  result := .ok ()
  state := { st with episodeQueue := st.episodeQueue.map (fun p => (p.1, ([] : List GraphitiEpisode))) }
  events := [.syncCompleted now]
  calls := (st.episodeQueue.map (fun p => attemptGroup deliver p.2)).flatten

/-- `destroy()`: cancel the sync timer, run one final `syncWithGraphiti`
pass, clear both caches and the queue, set `isConnected = false`, emit
`destroyed` (after the sync pass's own `sync:completed`). -/
def destroy (st : AdapterState)
    (deliver : GraphitiEpisode → Except RemoteError Unit) (now : Nat) :
    OpResult Unit :=
  let syncRes := syncWithGraphiti { st with syncTimerActive := false } deliver now
  { result := .ok ()
    state := { syncRes.state with
      nodeCache := [], edgeCache := [], episodeQueue := [], isConnected := false }
    events := syncRes.events ++ [.destroyed]
    calls := syncRes.calls }

/-- One public adapter operation other than construction, bundled with the
remote outcomes it would observe; used to quantify over arbitrary call
sequences. -/
inductive AdapterOp where
  | addMemoryOp (name content : String) (opts : AddMemoryOptions)
      (newUuid : String) (now : Nat) (flushOutcome : Except RemoteError Unit)
  | searchNodesOp (query : String) (opts : SearchNodesOptions)
      (remote : Except RemoteError RemoteSearchReply)
  | searchFactsOp (query : String) (opts : SearchFactsOptions)
      (remote : Except RemoteError RemoteSearchReply)
  | getRecentEpisodesOp (groupId : Option String) (limit : Nat)
      (remote : Except RemoteError (Option (List GraphitiEpisode)))
  | clearGraphOp (remote : Except RemoteError Unit)
  | updateFactValidityOp (edgeUuid : String) (isValid : Bool) (validUntil : Option Nat)
  | shareOp (nodeUuids targetSwarms : List String) (now : Nat)
  | syncOp (deliver : GraphitiEpisode → Except RemoteError Unit) (now : Nat)
  | destroyOp (deliver : GraphitiEpisode → Except RemoteError Unit) (now : Nat)

/-- The state reached after running one `AdapterOp`. -/
def applyOp (st : AdapterState) : AdapterOp → AdapterState
  | .addMemoryOp name content opts newUuid now fo =>
      (addMemory st name content opts newUuid now fo).state
  | .searchNodesOp query opts remote => (searchNodes st query opts remote).state
  | .searchFactsOp query opts remote => (searchFacts st query opts remote).state
  | .getRecentEpisodesOp groupId limit remote =>
      (getRecentEpisodes st groupId limit remote).state
  | .clearGraphOp remote => (clearGraph st remote).state
  | .updateFactValidityOp edgeUuid isValid validUntil =>
      (updateFactValidity st edgeUuid isValid validUntil).state
  | .shareOp nodeUuids targetSwarms now =>
      (shareWithHiveMind st nodeUuids targetSwarms now).state
  | .syncOp deliver now => (syncWithGraphiti st deliver now).state
  | .destroyOp deliver now => (destroy st deliver now).state

/-- Run a sequence of operations from a starting state. -/
def runOps (st : AdapterState) (ops : List AdapterOp) : AdapterState :=
  ops.foldl applyOp st

/-! Concrete fixtures used to instantiate the theorems below. -/

/-- A merged config obtained from a caller config that only sets
`enabled: true` (so all defaults apply, temporal tracking included). -/
def exConfig : GraphitiConfig := mergeConfig { enabled := true }

/-- A cached node whose name and observation both contain lowercase
"alpha" / "hello". -/
def exNode : GraphitiNode where
  uuid := "n1"
  name := "Alpha"
  entityType := "Person"
  observations := ["hello world"]
  groupId := "default"
  createdAt := 0
  updatedAt := 0

/-- A second cached node that does not match the example queries. -/
def exNodeB : GraphitiNode where
  uuid := "n2"
  name := "Beta"
  entityType := "Person"
  observations := ["other"]
  groupId := "default"
  createdAt := 0
  updatedAt := 0

/-- A cached edge between the two example nodes. -/
def exEdge : GraphitiEdge where
  uuid := "e1"
  fromUuid := "n1"
  toUuid := "n2"
  relationType := "knows"
  groupId := "default"
  createdAt := 0

/-- An already-queued episode in group "default". -/
def exEpisode : GraphitiEpisode where
  uuid := "ep1"
  name := "first"
  content := "payload"
  source := .text
  groupId := "default"
  createdAt := 1

/-- A queued episode in group "g2". -/
def exEpisodeB : GraphitiEpisode where
  uuid := "ep2"
  name := "second"
  content := "payload2"
  source := .json
  groupId := "g2"
  createdAt := 2

/-- A third queued episode, behind `exEpisode` in group "default". -/
def exEpisodeC : GraphitiEpisode where
  uuid := "ep3"
  name := "third"
  content := "payload3"
  source := .message
  groupId := "default"
  createdAt := 3

/-- A connected adapter with populated caches and a non-empty queue. -/
def exConnState : AdapterState where
  config := exConfig
  isConnected := true
  syncTimerActive := true
  episodeQueue := [("default", [exEpisode, exEpisodeC]), ("g2", [exEpisodeB])]
  nodeCache := [("n1", exNode), ("n2", exNodeB)]
  edgeCache := [("e1", exEdge)]

/-- The same populated adapter in fallback (not connected) mode. -/
def exFallbackState : AdapterState :=
  { exConnState with isConnected := false, syncTimerActive := false }

/-- A delivery behavior under which every remote flush throws. -/
def exDeliver : GraphitiEpisode → Except RemoteError Unit := fun _ => .error "down"

/-- A caller config with `enabled: false`. -/
def exDisabledInput : GraphitiConfigInput := { enabled := false }

/-- A caller config with `enabled: true`. -/
def exEnabledInput : GraphitiConfigInput := { enabled := true }

/-! Helper lemmas about the association-list `Map` model and the sync loop. -/

theorem mapGet_mapSet_self {α : Type} (m : List (String × α)) (k : String) (v : α) :
    mapGet (mapSet m k v) k = some v := by
  induction m with
  | nil => simp [mapSet, mapGet]
  | cons p t ih =>
      obtain ⟨k1, w⟩ := p
      by_cases h : k1 = k <;> simp [mapSet, mapGet, h, ih]

theorem mapGet_map_emptied (l : List (String × List GraphitiEpisode)) (g : String)
    (q : List GraphitiEpisode)
    (h : mapGet (l.map (fun p => (p.1, ([] : List GraphitiEpisode)))) g = some q) :
    q = [] := by
  induction l with
  | nil => simp [mapGet] at h
  | cons p t ih =>
      by_cases hk : p.1 = g
      · simp [mapGet, hk] at h
        exact h
      · simp [mapGet, hk] at h
        exact ih h

theorem attemptGroup_eq_map (deliver : GraphitiEpisode → Except RemoteError Unit)
    (es : List GraphitiEpisode) :
    attemptGroup deliver es = es.map RemoteCall.addMemoryTool := by
  induction es with
  | nil => rfl
  | cons e t ih => cases h : deliver e <;> simp [attemptGroup, h, ih]

theorem flatten_map_addMemoryTool (l : List (String × List GraphitiEpisode)) :
    (l.map (fun p => p.2.map RemoteCall.addMemoryTool)).flatten
      = ((l.map Prod.snd).flatten).map RemoteCall.addMemoryTool := by
  induction l with
  | nil => rfl
  | cons p t ih => simp [ih]

theorem foldl_add_length (l : List (String × List GraphitiEpisode)) (n : Nat) :
    l.foldl (fun sum p => sum + p.2.length) n
      = n + (l.map (fun p => p.2.length)).sum := by
  induction l generalizing n with
  | nil => simp
  | cons p t ih => simp [List.foldl, ih, Nat.add_assoc]

theorem applyOp_preserves_disconnected (st : AdapterState) (op : AdapterOp)
    (h : st.isConnected = false) : (applyOp st op).isConnected = false := by
  cases op with
  | addMemoryOp name content opts uuid now fo =>
      simp [applyOp, addMemory, h]
  | searchNodesOp q opts r => simp [applyOp, searchNodes, h]
  | searchFactsOp q opts r => simp [applyOp, searchFacts, h]
  | getRecentEpisodesOp g lim r => simp [applyOp, getRecentEpisodes, h]
  | clearGraphOp r => simp [applyOp, clearGraph, h]
  | updateFactValidityOp uuid isValid validUntil =>
      simp only [applyOp, updateFactValidity]
      split
      · exact h
      · cases hm : mapGet st.edgeCache uuid <;> simp [hm, h]
  | shareOp uuids swarms now => simp [applyOp, shareWithHiveMind, h]
  | syncOp deliver now => simp [applyOp, syncWithGraphiti, h]
  | destroyOp deliver now => simp [applyOp, destroy]

theorem runOps_preserves_disconnected (ops : List AdapterOp) (st : AdapterState)
    (h : st.isConnected = false) : (runOps st ops).isConnected = false := by
  induction ops generalizing st with
  | nil => exact h
  | cons op t ih => exact ih (applyOp st op) (applyOp_preserves_disconnected st op h)

/-! The claims. -/

/-- C1, counterexample to the claim as stated: with the adapter connected and
the remote `clear_graph` invocation throwing, the error is rethrown but the
node cache, edge cache and episode queue are NOT cleared (the state is
unchanged and non-empty) and no `graph:cleared` event is emitted. -/
theorem C1_counterexample :
    (clearGraph exConnState (.error "boom")).result = .error "boom" ∧
    (clearGraph exConnState (.error "boom")).state = exConnState ∧
    exConnState.nodeCache ≠ [] ∧
    exConnState.episodeQueue ≠ [] ∧
    (clearGraph exConnState (.error "boom")).events = [] :=
  ⟨rfl, rfl, by decide, by decide, rfl⟩

/-- C1 (amended): `clearGraph` — when connected and the remote `clear_graph`
invocation throws, the error is rethrown to the caller and the local clears
and the `graph:cleared` emission are skipped (state unchanged); when not
connected, or when the remote invocation succeeds, the node cache, the edge
cache and the episode write buffer are cleared and `graph:cleared` is
emitted. -/
theorem C1_clearGraph_spec (st : AdapterState) (out : Except RemoteError Unit) :
    (∀ e : RemoteError, st.isConnected = true → out = .error e →
        clearGraph st out
          = { result := .error e, state := st, events := [],
              calls := [.clearGraphTool] }) ∧
    ((st.isConnected = false ∨ out = .ok ()) →
        (clearGraph st out).state.nodeCache = [] ∧
        (clearGraph st out).state.edgeCache = [] ∧
        (clearGraph st out).state.episodeQueue = [] ∧
        (clearGraph st out).events = [.graphCleared] ∧
        (clearGraph st out).result = .ok ()) := by
  constructor
  · intro e hconn hout
    subst hout
    simp [clearGraph, hconn]
  · intro h
    rcases h with h | h
    · simp [clearGraph, h]
    · subst h
      by_cases hc : st.isConnected <;> simp [clearGraph, hc]

/-- C1, witness for the amended theorem at concrete inputs. -/
theorem C1_clearGraph_spec_witness :
    clearGraph exConnState (.error "err1")
      = { result := .error "err1", state := exConnState, events := [],
          calls := [.clearGraphTool] } ∧
    (clearGraph exFallbackState (.ok ())).events = [.graphCleared] :=
  ⟨(C1_clearGraph_spec exConnState (.error "err1")).1 "err1" rfl rfl,
   ((C1_clearGraph_spec exFallbackState (.ok ())).2 (Or.inl rfl)).2.2.2.1⟩

/-- C2, counterexample to the claim as stated: with the adapter connected and
the immediate delivery throwing, the error propagates and the episode remains
queued, but NO `memory:added` event is emitted. -/
theorem C2_counterexample :
    (addMemory exConnState "n" "c" {} "u1" 5 (.error "down")).result = .error "down" ∧
    mapGet (addMemory exConnState "n" "c" {} "u1" 5 (.error "down")).state.episodeQueue
        "default"
      = some [exEpisode, exEpisodeC, mkEpisode exConnState "n" "c" {} "u1" 5] ∧
    (addMemory exConnState "n" "c" {} "u1" 5 (.error "down")).events = [] :=
  ⟨rfl, rfl, rfl⟩

/-- C2 (amended): when connected and the immediate flush throws, `addMemory`
propagates the error to its caller and the episode remains appended at the
tail of its group's queue, but the `memory:added` emission is skipped — it
happens only when delivery is not attempted or succeeds. -/
theorem C2_addMemory_flush_throw (st : AdapterState) (name content : String)
    (opts : AddMemoryOptions) (uuid : String) (now : Nat) (e : RemoteError)
    (h : st.isConnected = true) :
    (addMemory st name content opts uuid now (.error e)).result = .error e ∧
    mapGet (addMemory st name content opts uuid now (.error e)).state.episodeQueue
        (mkEpisode st name content opts uuid now).groupId
      = some (((mapGet st.episodeQueue
            (mkEpisode st name content opts uuid now).groupId).getD [])
          ++ [mkEpisode st name content opts uuid now]) ∧
    (addMemory st name content opts uuid now (.error e)).events = [] ∧
    (addMemory st name content opts uuid now (.error e)).calls
      = [.addMemoryTool (mkEpisode st name content opts uuid now)] := by
  refine ⟨?_, ?_, ?_, ?_⟩ <;> simp [addMemory, h, mapGet_mapSet_self]

/-- C2, witness for the amended theorem at concrete inputs. -/
theorem C2_addMemory_flush_throw_witness :
    exConnState.isConnected = true ∧
    (addMemory exConnState "n2" "c2" {} "u9" 6 (.error "down")).events = [] :=
  ⟨rfl, (C2_addMemory_flush_throw exConnState "n2" "c2" {} "u9" 6 "down" rfl).2.2.1⟩

/-- C3, counterexample to the claim as stated: when the availability probe
throws during initialization, the emitted event list is exactly `[error]` —
no `fallback` event is emitted alongside it. -/
theorem C3_counterexample :
    (construct exEnabledInput (.thrown "boom")).2.1 = [.errorEvt "boom"] ∧
    AdapterEvent.fallback ∉ (construct exEnabledInput (.thrown "boom")).2.1 ∧
    (construct exEnabledInput (.thrown "boom")).1.isConnected = false :=
  ⟨rfl, by decide, rfl⟩

/-- C3 (amended): with the adapter enabled, a probe that throws leaves the
adapter disconnected and emits ONLY an `error` event (no `fallback`); a
probe that resolves false emits only a `fallback` event, likewise remaining
disconnected. -/
theorem C3_initialize_events (input : GraphitiConfigInput)
    (h : input.enabled = true) :
    (∀ e : RemoteError,
        (construct input (.thrown e)).2.1 = [.errorEvt e] ∧
        (construct input (.thrown e)).1.isConnected = false) ∧
    ((construct input .unavailable).2.1 = [.fallback] ∧
     (construct input .unavailable).1.isConnected = false) := by
  constructor
  · intro e
    constructor <;> simp [construct, mergeConfig, initAdapter, initState, h]
  · constructor <;> simp [construct, mergeConfig, initAdapter, initState, h]

/-- C3, witness for the amended theorem at concrete inputs. -/
theorem C3_initialize_events_witness :
    (construct exEnabledInput (.thrown "e")).2.1 = [.errorEvt "e"] ∧
    (construct exEnabledInput .unavailable).2.1 = [.fallback] :=
  ⟨((C3_initialize_events exEnabledInput rfl).1 "e").1,
   (C3_initialize_events exEnabledInput rfl).2.1⟩

/-- C4: on a sync tick every queued episode of every group is attempted in
exact FIFO enqueue order, regardless of per-episode delivery outcomes (a
failure aborts nothing); afterwards every group's queue is reset to empty
(failures are discarded, not requeued), nothing is rethrown, and
`sync:completed` is emitted unconditionally. -/
theorem C4_sync_fifo_and_reset (st : AdapterState)
    (deliver : GraphitiEpisode → Except RemoteError Unit) (now : Nat) :
    (syncWithGraphiti st deliver now).calls
      = ((st.episodeQueue.map Prod.snd).flatten).map RemoteCall.addMemoryTool ∧
    (∀ g q, mapGet (syncWithGraphiti st deliver now).state.episodeQueue g = some q →
        q = []) ∧
    (syncWithGraphiti st deliver now).events = [.syncCompleted now] ∧
    (syncWithGraphiti st deliver now).result = .ok () := by
  refine ⟨?_, ?_, rfl, rfl⟩
  · simp [syncWithGraphiti, attemptGroup_eq_map, flatten_map_addMemoryTool]
  · intro g q h
    exact mapGet_map_emptied st.episodeQueue g q (by simpa [syncWithGraphiti] using h)

/-- C4, witness at a concrete two-group state where every delivery throws:
all three episodes are still attempted in order and the queues end empty. -/
theorem C4_sync_fifo_and_reset_witness :
    mapGet (syncWithGraphiti exConnState exDeliver 7).state.episodeQueue "g2"
      = some ([] : List GraphitiEpisode) ∧
    ([] : List GraphitiEpisode) = [] ∧
    (syncWithGraphiti exConnState exDeliver 7).calls
      = [.addMemoryTool exEpisode, .addMemoryTool exEpisodeC,
         .addMemoryTool exEpisodeB] :=
  ⟨by decide,
   (C4_sync_fifo_and_reset exConnState exDeliver 7).2.1 "g2" [] (by decide),
   by decide⟩

/-- C5, counterexample to the claim as stated: with a caller-supplied
`maxNodes` of 0 the result is NOT truncated to 0 nodes — JavaScript's
`options?.maxNodes || 10` treats 0 as falsy, so the default 10 applies and
the single matching node is returned. -/
theorem C5_counterexample :
    (fallbackSearch exFallbackState "ALPHA" (some 0)).nodes = some [exNode] ∧
    (fallbackSearch exFallbackState "ALPHA" (some 0)).nodes
      ≠ some ([] : List GraphitiNode) :=
  ⟨by decide, by decide⟩

/-- C5 (amended): fallback search returns exactly the cached nodes whose
name or some observation contains the query as a case-insensitive substring,
in cache-iteration order, each matching cache entry contributing once,
truncated to the caller-supplied `maxNodes` when that is non-zero and to 10
otherwise (a supplied 0 is falsy under `||`), with relevance 0.5 when at
least one node matched (before truncation) and 0 otherwise. -/
theorem C5_fallbackSearch_spec (st : AdapterState) (query : String)
    (maxNodesOpt : Option Nat) :
    (fallbackSearch st query maxNodesOpt).nodes
      = some (((st.nodeCache.map Prod.snd).filter (nodeMatches query)).take
          (jsOrNat maxNodesOpt 10)) ∧
    (fallbackSearch st query maxNodesOpt).edges = none ∧
    (fallbackSearch st query maxNodesOpt).facts = none ∧
    (fallbackSearch st query maxNodesOpt).relevanceScore
      = (if ((st.nodeCache.map Prod.snd).filter (nodeMatches query)).length > 0
          then (1 : ℚ) / 2 else 0) ∧
    ((st.nodeCache.map Prod.snd).Nodup →
        (((st.nodeCache.map Prod.snd).filter (nodeMatches query)).take
            (jsOrNat maxNodesOpt 10)).Nodup) := by
  refine ⟨rfl, rfl, rfl, rfl, ?_⟩
  intro h
  exact ((List.take_sublist _ _).trans (List.filter_sublist _)).nodup h

/-- C5, witness for the amended theorem at a concrete cache. -/
theorem C5_fallbackSearch_spec_witness :
    (exFallbackState.nodeCache.map Prod.snd).Nodup ∧
    (((exFallbackState.nodeCache.map Prod.snd).filter (nodeMatches "hello")).take
        (jsOrNat (some 5) 10)).Nodup :=
  ⟨by decide,
   (C5_fallbackSearch_spec exFallbackState "hello" (some 5)).2.2.2.2 (by decide)⟩

/-- C6: with the adapter connected, a thrown remote error inside
`searchNodes` (respectively `searchFacts`) is never rethrown: the call
returns an empty nodes (respectively facts) result with relevance 0 and
leaves the state unchanged. -/
theorem C6_search_error_swallowed (st : AdapterState) (query : String)
    (nopts : SearchNodesOptions) (fopts : SearchFactsOptions) (e : RemoteError)
    (h : st.isConnected = true) :
    (searchNodes st query nopts (.error e)).result
      = .ok { nodes := some [], edges := none, facts := none, relevanceScore := 0 } ∧
    (searchNodes st query nopts (.error e)).state = st ∧
    (searchFacts st query fopts (.error e)).result
      = .ok { nodes := none, edges := none, facts := some [], relevanceScore := 0 } ∧
    (searchFacts st query fopts (.error e)).state = st := by
  refine ⟨?_, ?_, ?_, ?_⟩ <;> simp [searchNodes, searchFacts, h]

/-- C6, witness at a concrete connected state. -/
theorem C6_search_error_swallowed_witness :
    exConnState.isConnected = true ∧
    (searchNodes exConnState "q" {} (.error "x")).result
      = .ok { nodes := some [], edges := none, facts := none, relevanceScore := 0 } :=
  ⟨rfl, (C6_search_error_swallowed exConnState "q" {} {} "x" rfl).1⟩

/-- C7: `updateFactValidity` is a state- and event-free no-op when temporal
tracking is disabled or the edge is not cached; otherwise it rewrites the
cached edge with `invalid = !isValid` and the given `validUntil`, emits
`fact:updated`, and never makes a remote invocation. -/
theorem C7_updateFactValidity_spec (st : AdapterState) (edgeUuid : String)
    (isValid : Bool) (validUntil : Option Nat) :
    (st.config.enableTemporalTracking = false →
        updateFactValidity st edgeUuid isValid validUntil
          = { result := .ok (), state := st, events := [], calls := [] }) ∧
    (mapGet st.edgeCache edgeUuid = none →
        updateFactValidity st edgeUuid isValid validUntil
          = { result := .ok (), state := st, events := [], calls := [] }) ∧
    (∀ edge, st.config.enableTemporalTracking = true →
        mapGet st.edgeCache edgeUuid = some edge →
        (updateFactValidity st edgeUuid isValid validUntil).state
          = { st with
              edgeCache := mapSet st.edgeCache edgeUuid (updatedEdge edge isValid validUntil) } ∧
        (updateFactValidity st edgeUuid isValid validUntil).events
          = [.factUpdated edgeUuid isValid validUntil] ∧
        (updateFactValidity st edgeUuid isValid validUntil).calls = []) := by
  refine ⟨?_, ?_, ?_⟩
  · intro h
    simp [updateFactValidity, h]
  · intro h
    by_cases ht : st.config.enableTemporalTracking = false
    · simp [updateFactValidity, ht]
    · simp [updateFactValidity, ht, h]
  · intro edge ht he
    simp [updateFactValidity, ht, he]

/-- C7, witness: updating a cached edge with temporal tracking enabled emits
exactly one `fact:updated`. -/
theorem C7_updateFactValidity_spec_witness :
    exConnState.config.enableTemporalTracking = true ∧
    mapGet exConnState.edgeCache "e1" = some exEdge ∧
    (updateFactValidity exConnState "e1" false (some 99)).events
      = [.factUpdated "e1" false (some 99)] :=
  ⟨rfl, rfl,
   ((C7_updateFactValidity_spec exConnState "e1" false (some 99)).2.2 exEdge rfl rfl).2.1⟩

/-- C8: `destroy()` followed by `getStatistics()` reports zero nodes, zero
edges, zero cache size, zero queued episodes and `isConnected = false`; and
for every state, the reported `queuedEpisodes` equals the sum of all groups'
queue lengths. -/
theorem C8_destroy_statistics :
    (∀ (st : AdapterState) (deliver : GraphitiEpisode → Except RemoteError Unit)
        (now : Nat),
        getStatistics (destroy st deliver now).state
          = { totalNodes := 0, totalEdges := 0, queuedEpisodes := 0,
              cacheSize := 0, isConnected := false }) ∧
    (∀ s : AdapterState,
        (getStatistics s).queuedEpisodes
          = (s.episodeQueue.map (fun p => p.2.length)).sum) := by
  constructor
  · intro st deliver now
    rfl
  · intro s
    simp [getStatistics, foldl_add_length]

/-- C9: when not connected, `searchFacts` returns the fallback-search result
unchanged — matching cached nodes appear under `nodes`, the `facts` field is
absent, and no remote invocation or state change occurs. -/
theorem C9_searchFacts_fallback (st : AdapterState) (query : String)
    (opts : SearchFactsOptions) (remote : Except RemoteError RemoteSearchReply)
    (h : st.isConnected = false) :
    (searchFacts st query opts remote).result = .ok (fallbackSearch st query none) ∧
    (fallbackSearch st query none).facts = none ∧
    (fallbackSearch st query none).nodes
      = some (((st.nodeCache.map Prod.snd).filter (nodeMatches query)).take 10) ∧
    (searchFacts st query opts remote).calls = [] ∧
    (searchFacts st query opts remote).state = st := by
  refine ⟨?_, rfl, rfl, ?_, ?_⟩ <;> simp [searchFacts, h]

/-- C9, witness at a concrete fallback-mode state. -/
theorem C9_searchFacts_fallback_witness :
    exFallbackState.isConnected = false ∧
    (searchFacts exFallbackState "hello" {} (.ok {})).result
      = .ok (fallbackSearch exFallbackState "hello" none) :=
  ⟨rfl, (C9_searchFacts_fallback exFallbackState "hello" {} (.ok {}) rfl).1⟩

/-- C10: constructed with `enabled = false`, the availability probe never
runs, no startup event is emitted, and `isConnected` stays false across any
sequence of subsequent operations — hence every `searchNodes`/`searchFacts`
call takes the fallback path and `addMemory` never attempts immediate remote
delivery. -/
theorem C10_disabled_lifetime (input : GraphitiConfigInput)
    (probe : ProbeOutcome) (ops : List AdapterOp)
    (h : input.enabled = false) :
    (construct input probe).2.2 = 0 ∧
    (construct input probe).2.1 = [] ∧
    (runOps (construct input probe).1 ops).isConnected = false ∧
    (∀ (query : String) (nopts : SearchNodesOptions)
        (remote : Except RemoteError RemoteSearchReply),
        searchNodes (runOps (construct input probe).1 ops) query nopts remote
          = { result := .ok (fallbackSearch (runOps (construct input probe).1 ops)
                query nopts.maxNodes)
              state := runOps (construct input probe).1 ops
              events := [], calls := [] }) ∧
    (∀ (query : String) (fopts : SearchFactsOptions)
        (remote : Except RemoteError RemoteSearchReply),
        searchFacts (runOps (construct input probe).1 ops) query fopts remote
          = { result := .ok (fallbackSearch (runOps (construct input probe).1 ops)
                query none)
              state := runOps (construct input probe).1 ops
              events := [], calls := [] }) ∧
    (∀ (name content : String) (opts : AddMemoryOptions) (uuid : String)
        (now : Nat) (fo : Except RemoteError Unit),
        (addMemory (runOps (construct input probe).1 ops)
            name content opts uuid now fo).calls = [] ∧
        (addMemory (runOps (construct input probe).1 ops)
            name content opts uuid now fo).result = .ok uuid) := by
  have hc : (construct input probe).1.isConnected = false := by
    simp [construct, mergeConfig, h, initState]
  have hrun : (runOps (construct input probe).1 ops).isConnected = false :=
    runOps_preserves_disconnected ops _ hc
  refine ⟨?_, ?_, hrun, ?_, ?_, ?_⟩
  · simp [construct, mergeConfig, h]
  · simp [construct, mergeConfig, h]
  · intro query nopts remote
    simp [searchNodes, hrun]
  · intro query fopts remote
    simp [searchFacts, hrun]
  · intro name content opts uuid now fo
    constructor <;> simp [addMemory, hrun, mkEpisode]

/-- C10, witness: a disabled adapter runs no probe, emits nothing, and is
still disconnected after an `addMemory` and a `clearGraph`. -/
theorem C10_disabled_lifetime_witness :
    exDisabledInput.enabled = false ∧
    (construct exDisabledInput .available).2.2 = 0 ∧
    (construct exDisabledInput .available).2.1 = [] ∧
    (runOps (construct exDisabledInput .available).1
        [.addMemoryOp "n" "c" {} "u1" 1 (.ok ()),
         .clearGraphOp (.ok ())]).isConnected = false := by
  have hth := C10_disabled_lifetime exDisabledInput .available
      [.addMemoryOp "n" "c" {} "u1" 1 (.ok ()), .clearGraphOp (.ok ())] rfl
  exact ⟨rfl, hth.1, hth.2.1, hth.2.2.1⟩

end Graphiti
